import Mathlib

/-!
Shallow embedding of the thermal throttling controller
(`thermal_throttling.cpp` of the MediaTek thermal HAL).

Modelling conventions:
* IEEE `float` is modelled as `Option ℚ`, with `none` playing the role of the
  NaN sentinel; every arithmetic helper propagates `none` and every ordered
  comparison on `none` is false, matching IEEE semantics of NaN.
* `int` / `size_t` are modelled as `Int` / `Nat`.
* `std::unordered_map` is modelled as an association list; `map.at(k)` sites
  are modelled with a defaulted lookup and are only exercised where the
  surrounding code guarantees the key is present.
* The layout of `ThermalThrottlingStatus` and the container behind
  `cdev_all_request_map_` live in a header that is not part of the translation
  unit; they are modelled from the spec: the registry is, per cooling device,
  a multiset of votes whose maximum is what `begin()` dereferences.
-/

set_option maxHeartbeats 1000000
set_option maxRecDepth 100000

namespace Thermal

/-- IEEE float value: a rational, or `none` for NaN. -/
abbrev F := Option ℚ

/-- Float addition (NaN propagating). -/
def fadd : F → F → F
  | some a, some b => some (a + b)
  | _, _ => none

/-- Float subtraction (NaN propagating). -/
def fsub : F → F → F
  | some a, some b => some (a - b)
  | _, _ => none

/-- Float multiplication (NaN propagating). -/
def fmul : F → F → F
  | some a, some b => some (a * b)
  | _, _ => none

/-- Float division; division by zero is collapsed into the absent value
(the call sites below never divide by zero on the paths the theorems use). -/
def fdiv : F → F → F
  | some a, some b => if b = 0 then none else some (a / b)
  | _, _ => none

/-- Float absolute value. -/
def fabs : F → F := Option.map abs

/-- Strict `<` on floats: any comparison against NaN is false. -/
def flt : F → F → Bool
  | some a, some b => decide (a < b)
  | _, _ => false

/-- Non-strict `<=` on floats: any comparison against NaN is false. -/
def fle : F → F → Bool
  | some a, some b => decide (a ≤ b)
  | _, _ => false

/-- Model of `>=` on floats: any comparison against NaN is false. -/
def fge (a b : F) : Bool := fle b a

/-- IEEE `==`: false whenever either side is NaN. -/
def feq : F → F → Bool
  | some a, some b => decide (a = b)
  | _, _ => false

/-- Model of `std::clamp(v, lo, hi)`: defined as `v < lo ? lo : hi < v ? hi : v`. -/
def fclamp (v lo hi : F) : F := if flt v lo then lo else if flt hi v then hi else v

/-- Model of `std::max(a, b)` on floats: `(a < b) ? b : a`. -/
def fmaxStd (a b : F) : F := if flt a b then b else a

/-- Model of `std::min(a, b)` on floats: `(b < a) ? b : a`. -/
def fminStd (a b : F) : F := if flt b a then b else a

/-- Model of `std::numeric_limits<int>::max()`. -/
def intMax : Int := 2147483647

/-- Model of `std::numeric_limits<int>::max()` converted to `float`
(the conversion rounds up to `2^31`). -/
def intMaxF : F := some ((2 : ℚ) ^ 31)

/-- Model of `std::numeric_limits<float>::max()`. -/
def floatMax : ℚ := 2 ^ 128 - 2 ^ 104

/-- Association list lookup, the model of `unordered_map` lookup. -/
def lookupA {α : Type} : List (String × α) → String → Option α
  | [], _ => none
  | (k, v) :: rest, key => if k = key then some v else lookupA rest key

/-- Association list write through `operator[]`: overwrites the entry if the
key is present, appends it otherwise. -/
def setA {α : Type} : List (String × α) → String → α → List (String × α)
  | [], key, nv => [(key, nv)]
  | (k, v) :: rest, key, nv =>
    if k = key then (k, nv) :: rest else (k, v) :: setA rest key nv

/-- Association list write through `map.at(k) = v`: only rewrites a present
entry (the sources only do this when the key exists). -/
def updateA {α : Type} : List (String × α) → String → α → List (String × α)
  | [], _, _ => []
  | (k, v) :: rest, key, nv =>
    if k = key then (k, nv) :: rest else (k, v) :: updateA rest key nv

/-- Defaulted lookup, the model of `map.at(k)` under the invariant that `k`
is present (C++ would throw `std::out_of_range` otherwise). -/
def atD {α : Type} (l : List (String × α)) (key : String) (d : α) : α :=
  (lookupA l key).getD d

/-- The five release logics of `BindedCdevInfo`. -/
inductive ReleaseLogic
  | NONE
  | INCREASE
  | DECREASE
  | STEPWISE
  | RELEASE_TO_FLOOR
  deriving DecidableEq

/-- Per (sensor, CDEV) binding configuration.  The per-severity tables are
total functions on the severity ordinal (the parsed vectors always have
`kThrottlingSeverityCount = 7` entries). -/
structure BindedCdevInfo where
  cdev_weight_for_pid : Nat → F
  cdev_ceiling : Nat → Int
  limit_info : Nat → Int
  power_thresholds : Nat → F
  release_logic : ReleaseLogic
  high_power_check : Bool
  throttling_with_power_link : Bool
  cdev_floor_with_power_link : Nat → Int
  power_rail : String
  enabled : Bool
  max_release_step : Int
  max_throttle_step : Int

/-- Static cooling device data. -/
structure CdevInfo where
  state2power : List F
  max_state : Int

/-- Optional predictor block of `SensorInfo`. -/
structure PredictorInfo where
  support_pid_compensation : Bool
  prediction_weights : List F
  k_p_compensate : Nat → F

/-- Per-sensor throttling configuration. -/
structure ThrottlingInfo where
  k_po : Nat → F
  k_pu : Nat → F
  k_io : Nat → F
  k_iu : Nat → F
  k_d : Nat → F
  i_max : Nat → F
  max_alloc_power : Nat → F
  min_alloc_power : Nat → F
  s_power : Nat → F
  i_cutoff : Nat → F
  i_default : F
  i_default_pct : F
  tran_cycle : Nat
  excluded_power_info_map : List (String × (Nat → F))
  binded_cdev_info_map : List (String × BindedCdevInfo)
  profile_map : List (String × List (String × BindedCdevInfo))

/-- Read-only sensor configuration (fields the controller consumes).
`throttling_info` is modelled non-null: every caller below guards the
nullptr case before reaching the code that dereferences it. -/
structure SensorInfo where
  hot_thresholds : Nat → F
  multiplier : F
  predictor_info : Option PredictorInfo
  throttling_info : ThrottlingInfo

/-- Mutable per-sensor state (`ThermalThrottlingStatus`, modelled from the
spec since the header is outside the translation unit). -/
structure ThermalThrottlingStatus where
  pid_power_budget_map : List (String × F)
  pid_cdev_request_map : List (String × Int)
  hardlimit_cdev_request_map : List (String × Int)
  throttling_release_map : List (String × Int)
  cdev_status_map : List (String × Int)
  prev_err : F
  i_budget : F
  prev_target : Nat
  prev_power_budget : F
  budget_transient : F
  tran_cycle : Nat
  profile : String

/-- Default-constructed status; `budget_transient` is indeterminate in C++
until first written, modelled as the absent value. -/
def initStatus : ThermalThrottlingStatus where
  pid_power_budget_map := []
  pid_cdev_request_map := []
  hardlimit_cdev_request_map := []
  throttling_release_map := []
  cdev_status_map := []
  prev_err := none
  i_budget := none
  prev_target := 0
  prev_power_budget := none
  budget_transient := none
  tran_cycle := 0
  profile := ""

/-- The two member maps of the `ThermalThrottling` object:
the per-sensor status map and the per-CDEV vote registry. -/
structure ThermalThrottling where
  thermal_throttling_status_map : List (String × ThermalThrottlingStatus)
  cdev_all_request_map : List (String × List Int)

/-- Placeholder cooling device used as the default of `at`-style lookups on
paths where the key is guaranteed to be present. -/
def defaultCdev : CdevInfo where
  state2power := []
  max_state := 0

/-- Placeholder binding used as the default of `at`-style lookups on paths
where the key is guaranteed to be present. -/
def defaultBinded : BindedCdevInfo where
  cdev_weight_for_pid := fun _ => none
  cdev_ceiling := fun _ => 0
  limit_info := fun _ => 0
  power_thresholds := fun _ => none
  release_logic := ReleaseLogic.NONE
  high_power_check := false
  throttling_with_power_link := false
  cdev_floor_with_power_link := fun _ => 0
  power_rail := ""
  enabled := true
  max_release_step := intMax
  max_throttle_step := intMax

/-- Model of `state2power[i]` for a `size_t` index; out-of-range reads (undefined
behaviour in C++) collapse to the absent value. -/
def s2p (cdev_info : CdevInfo) (i : Nat) : F := cdev_info.state2power.getD i none

/-- Model of `state2power[i]` for an `int` index. -/
def s2pZ (cdev_info : CdevInfo) (i : Int) : F :=
  if i < 0 then none else s2p cdev_info i.toNat

/-- Maximum of a vote multiset, built by folding `max`. -/
def regMaxStep (m : Option Int) (a : Int) : Option Int :=
  match m with
  | none => some a
  | some b => some (max b a)

/-- Maximum of a list of votes as an `Option` (none on the empty list). -/
def maxO (l : List Int) : Option Int := l.foldl regMaxStep none

/-- What `*request_set.begin()` dereferences: the maximum vote of the
(descending-ordered) multiset.  The empty case is undefined behaviour in
C++ and never reached from a registered CDEV. -/
def regMax (l : List Int) : Int := (maxO l).getD 0

/-- Model of `ThermalThrottling::getCdevMaxRequest`: false (here `none`) when the
CDEV is not in the registry, otherwise the maximum vote. -/
def getCdevMaxRequest (cdev_all_request_map : List (String × List Int))
    (cdev_name : String) : Option Int :=
  (lookupA cdev_all_request_map cdev_name).map regMax

/-- Model of `ThermalThrottling::updateCdevMaxRequestAndNotifyIfChange`: replace one
occurrence of `cur_request` by `new_request` in the CDEV vote multiset and
report whether the maximum changed. -/
def updateCdevMaxRequestAndNotifyIfChange (reg : List (String × List Int))
    (cdev_name : String) (cur_request new_request : Int) :
    List (String × List Int) × Bool :=
  let request_set := atD reg cdev_name []
  let cur_max_request := regMax request_set
  let request_set2 := new_request :: request_set.erase cur_request
  let new_max_request := regMax request_set2
  (setA reg cdev_name request_set2, decide (new_max_request ≠ cur_max_request))

/-- The loop body of `getTargetStateOfPID`, iterating the severity ordinals
in ascending order with the running `target_state` accumulator. -/
def gtsLoop (sp : Nat → F) (curr_severity : Nat) : List Nat → Nat → Nat
  | [], target_state => target_state
  | s :: rest, target_state =>
    if (sp s).isNone then gtsLoop sp curr_severity rest target_state
    else if curr_severity < s then s
    else gtsLoop sp curr_severity rest s

/-- Model of `getTargetStateOfPID`: scan severities `0..6`, remembering the last one
with a non-NaN `s_power`, and stop right after recording the first severity
strictly above `curr_severity`. -/
def getTargetStateOfPID (sensor_info : SensorInfo) (curr_severity : Nat) : Nat :=
  gtsLoop sensor_info.throttling_info.s_power curr_severity (List.range 7) 0

/-- True when some severity has a non-NaN PID weight: the binding gets PID
throttling entries at registration. -/
def pidRegistered (bi : BindedCdevInfo) : Bool :=
  (List.range 7).any fun s => (bi.cdev_weight_for_pid s).isSome

/-- True when some severity has a positive hard limit: the binding gets a
hard-limit entry at registration. -/
def hardRegistered (bi : BindedCdevInfo) : Bool :=
  (List.range 7).any fun s => decide (0 < bi.limit_info s)

/-- True when the binding has a power rail and some non-NaN power threshold:
the binding gets a throttling release entry at registration. -/
def releaseRegistered (bi : BindedCdevInfo) : Bool :=
  decide (bi.power_rail ≠ "") && ((List.range 7).any fun s => (bi.power_thresholds s).isSome)

/-- The status updates one binding performs in the loop body of
`registerThermalThrottling`. -/
def regStepStatus (cdev_name : String) (bi : BindedCdevInfo)
    (st : ThermalThrottlingStatus) : ThermalThrottlingStatus :=
  let st1 :=
    if pidRegistered bi then
      { st with
        pid_power_budget_map := setA st.pid_power_budget_map cdev_name intMaxF,
        pid_cdev_request_map := setA st.pid_cdev_request_map cdev_name 0,
        cdev_status_map := setA st.cdev_status_map cdev_name 0 }
    else st
  let st2 :=
    if hardRegistered bi then
      { st1 with
        hardlimit_cdev_request_map := setA st1.hardlimit_cdev_request_map cdev_name 0,
        cdev_status_map := setA st1.cdev_status_map cdev_name 0 }
    else st1
  if releaseRegistered bi then
    { st2 with throttling_release_map := setA st2.throttling_release_map cdev_name 0 }
  else st2

/-- The vote-registry inserts one binding performs in the loop body of
`registerThermalThrottling` (one `insert(0)` for the PID path, one for the
hard-limit path). -/
def regStepRegistry (cdev_name : String) (bi : BindedCdevInfo)
    (reg : List (String × List Int)) : List (String × List Int) :=
  let reg1 :=
    if pidRegistered bi then setA reg cdev_name (0 :: atD reg cdev_name [])
    else reg
  if hardRegistered bi then setA reg1 cdev_name (0 :: atD reg1 cdev_name [])
  else reg1

/-- The per-binding loop of `registerThermalThrottling`: registers the PID,
hard-limit and release maps of each bound CDEV, failing at the first CDEV
absent from the cooling device map (the partially built entry stays). -/
def regBindLoop (cooling_device_info_map : List (String × CdevInfo)) (sensor_name : String) :
    List (String × BindedCdevInfo) → ThermalThrottling → Bool × ThermalThrottling
  | [], tt => (true, tt)
  | (cdev_name, bi) :: rest, tt =>
    if (lookupA cooling_device_info_map cdev_name).isNone then (false, tt)
    else
      let st := atD tt.thermal_throttling_status_map sensor_name initStatus
      regBindLoop cooling_device_info_map sensor_name rest
        { thermal_throttling_status_map :=
            setA tt.thermal_throttling_status_map sensor_name (regStepStatus cdev_name bi st)
          cdev_all_request_map := regStepRegistry cdev_name bi tt.cdev_all_request_map }

/-- Model of `ThermalThrottling::registerThermalThrottling`. -/
def registerThermalThrottling (sensor_name : String)
    (throttling_info : Option ThrottlingInfo)
    (cooling_device_info_map : List (String × CdevInfo)) (tt : ThermalThrottling) :
    Bool × ThermalThrottling :=
  if (lookupA tt.thermal_throttling_status_map sensor_name).isSome then (false, tt)
  else
    match throttling_info with
    | none => (false, tt)
    | some ti =>
      let sm1 := setA tt.thermal_throttling_status_map sensor_name initStatus
      let tt1 : ThermalThrottling := { tt with thermal_throttling_status_map := sm1 }
      regBindLoop cooling_device_info_map sensor_name ti.binded_cdev_info_map tt1

/-- Model of `ThermalThrottling::clearThrottlingData`: reset the per-sensor PID state
and the per-CDEV request entries.  Neither `cdev_status_map` nor the vote
registry is touched. -/
def clearThrottlingData (sensor_name : String) (tt : ThermalThrottling) :
    ThermalThrottling :=
  match lookupA tt.thermal_throttling_status_map sensor_name with
  | none => tt
  | some st =>
    let st2 :=
      { st with
        pid_power_budget_map := st.pid_power_budget_map.map (fun p => (p.1, intMaxF)),
        pid_cdev_request_map := st.pid_cdev_request_map.map (fun p => (p.1, (0 : Int))),
        hardlimit_cdev_request_map :=
          st.hardlimit_cdev_request_map.map (fun p => (p.1, (0 : Int))),
        throttling_release_map := st.throttling_release_map.map (fun p => (p.1, (0 : Int))),
        prev_err := none,
        i_budget := none,
        prev_target := 0,
        prev_power_budget := none,
        tran_cycle := 0 }
    { tt with
      thermal_throttling_status_map := setA tt.thermal_throttling_status_map sensor_name st2 }

/-- The binding set the tick operates on: the active profile when defined,
the default binding otherwise. -/
def ccdrBindings (sensor_info : SensorInfo) (st : ThermalThrottlingStatus) :
    List (String × BindedCdevInfo) :=
  match lookupA sensor_info.throttling_info.profile_map st.profile with
  | some b => b
  | none => sensor_info.throttling_info.binded_cdev_info_map

/-- Model of `ThermalThrottling::updatePowerBudget`, returning the updated per-sensor
status together with the power budget.  The member map access
`thermal_throttling_status_map_.at(temp.name)` is made explicit by taking and
returning the status.  On line 242 of the source the boolean result of
`getCdevMaxRequest` is assigned over the out-parameter `max_cdev_vote`, so the
index used into `state2power` is `1` when the CDEV is in the registry and `0`
otherwise; the embedding reproduces that. -/
def updatePowerBudget (temp_value : F) (sensor_info : SensorInfo)
    (cooling_device_info_map : List (String × CdevInfo))
    (cdev_all_request_map : List (String × List Int))
    (time_elapsed_ms : Nat) (curr_severity : Nat) (max_throttling : Bool)
    (sensor_predictions : List F) (st : ThermalThrottlingStatus) :
    ThermalThrottlingStatus × F :=
  let ti := sensor_info.throttling_info
  if curr_severity = 0 then (st, some floatMax)
  else
    let bindings := ccdrBindings sensor_info st
    let is_fully_release := ! bindings.any (fun p =>
      decide (p.2.limit_info curr_severity < atD st.pid_cdev_request_map p.1 0))
    let is_fully_throttle := ! bindings.any (fun p =>
      decide (atD st.pid_cdev_request_map p.1 0 < p.2.cdev_ceiling curr_severity))
    let target_state := getTargetStateOfPID sensor_info curr_severity
    let target_changed := decide (st.prev_target ≠ 0) && decide (target_state ≠ st.prev_target)
      && decide (0 < ti.tran_cycle)
    let tc1 := if target_changed then ti.tran_cycle - 1 else st.tran_cycle
    let target := sensor_info.hot_thresholds target_state
    let err := fsub target temp_value
    if max_throttling && fle err (some 0) then
      ({ st with prev_target := target_state, tran_cycle := tc1 },
       ti.min_alloc_power target_state)
    else
      let p := fmul err (if flt err (some 0) then ti.k_po target_state else ti.k_pu target_state)
      let i0 :=
        if st.i_budget.isNone then
          if ti.i_default_pct.isNone then ti.i_default
          else
            let default_i_budget := ti.binded_cdev_info_map.foldl
              (fun acc pr =>
                let cdev_info := atD cooling_device_info_map pr.1 defaultCdev
                let max_cdev_vote : Int :=
                  if (getCdevMaxRequest cdev_all_request_map pr.1).isSome then 1 else 0
                fadd acc (s2pZ cdev_info max_cdev_vote))
              (some 0)
            fdiv (fmul default_i_budget ti.i_default_pct) (some 100)
        else st.i_budget
      let i1 :=
        if flt err (ti.i_cutoff target_state) then
          if flt err (some 0) && flt (ti.min_alloc_power target_state) st.prev_power_budget
              && ! is_fully_throttle then
            fadd i0 (fmul err (ti.k_io target_state))
          else if flt (some 0) err && flt st.prev_power_budget (ti.max_alloc_power target_state)
              && ! is_fully_release then
            fadd i0 (fmul err (ti.k_iu target_state))
          else i0
        else i0
      let i2 :=
        if flt (ti.i_max target_state) (fabs i1) then
          fmul (ti.i_max target_state) (if flt (some 0) i1 then some 1 else some (-1))
        else i1
      let d :=
        if st.prev_err.isSome && decide (time_elapsed_ms ≠ 0) then
          fdiv (fmul (ti.k_d target_state) (fsub err st.prev_err)) (some (time_elapsed_ms : ℚ))
        else some 0
      let compensation :=
        match sensor_info.predictor_info with
        | none => some 0
        | some pinfo =>
          if pinfo.support_pid_compensation then
            let base := (List.range sensor_predictions.length).foldl
              (fun acc i =>
                fadd acc (fmul (pinfo.prediction_weights.getD i none)
                  (fsub target (fmul (sensor_predictions.getD i none) sensor_info.multiplier))))
              (some 0)
            fmul base (pinfo.k_p_compensate target_state)
          else some 0
      let power_budget0 := fadd (fadd (fadd (fadd (ti.s_power target_state) p) i2) d) compensation
      let power_budget1 := fclamp power_budget0 (ti.min_alloc_power target_state)
        (ti.max_alloc_power target_state)
      let budget_transient :=
        if target_changed then fsub st.prev_power_budget power_budget1 else st.budget_transient
      let power_budget2 :=
        if tc1 ≠ 0 then
          fadd power_budget1
            (fmul budget_transient (fdiv (some (tc1 : ℚ)) (some (ti.tran_cycle : ℚ))))
        else power_budget1
      let tc2 := if tc1 ≠ 0 then tc1 - 1 else tc1
      ({ st with
          prev_err := err,
          i_budget := i2,
          prev_target := target_state,
          prev_power_budget := power_budget2,
          budget_transient := budget_transient,
          tran_cycle := tc2 },
       power_budget2)

/-- Model of `ThermalThrottling::computeExcludedPower`: the weighted sum of the rails
of the excluded power map whose last average power is defined. -/
def computeExcludedPower (sensor_info : SensorInfo) (curr_severity : Nat)
    (power_status_map : List (String × F)) : F :=
  sensor_info.throttling_info.excluded_power_info_map.foldl
    (fun acc pr =>
      let last_updated_avg_power := (lookupA power_status_map pr.1).getD none
      if last_updated_avg_power.isSome then
        fadd acc (fmul last_updated_avg_power (pr.2 curr_severity))
      else acc)
    (some 0)

/-- The mutable locals of the two allocation passes. -/
structure AllocCtx where
  total_power_budget : F
  total_weight : F
  last_updated_avg_power : F
  allocated_power : F
  allocated_weight : F
  power_data_invalid : Bool
  allocated_cdev : List String
  status : ThermalThrottlingStatus

/-- The release-direction scan of `allocatePowerToCdev`: grow the step while
the candidate state is still above the severity limit and has the same
state power (duplicate-power states are skipped). -/
def releaseStepWalk (cdev_info : CdevInfo) (limit curr_cdev_vote step : Int) : Int :=
  if limit < curr_cdev_vote - step then
    if feq (s2pZ cdev_info (curr_cdev_vote - step)) (s2pZ cdev_info curr_cdev_vote) then
      releaseStepWalk cdev_info limit curr_cdev_vote (step + 1)
    else step
  else step
termination_by (curr_cdev_vote - step - limit).toNat
decreasing_by omega

/-- The throttle-direction scan of `allocatePowerToCdev`: grow the step while
below the ceiling on duplicate-power states. -/
def throttleStepWalk (cdev_info : CdevInfo) (ceiling curr_cdev_vote step : Int) : Int :=
  if curr_cdev_vote + step < ceiling then
    if feq (s2pZ cdev_info (curr_cdev_vote + step)) (s2pZ cdev_info curr_cdev_vote) then
      throttleStepWalk cdev_info ceiling curr_cdev_vote (step + 1)
    else step
  else step
termination_by (ceiling - curr_cdev_vote - step).toNat
decreasing_by omega

/-- Outcome of one binding inside an allocation pass: abort the whole call
(`return false`), stop the pass (`break`), or continue with the next binding. -/
inductive PassStep
  | abort (ctx : AllocCtx)
  | stop (ctx : AllocCtx)
  | go (ctx : AllocCtx)

/-- One iteration of the per-binding loop of `allocatePowerToCdev`. -/
def allocOne (curr_severity : Nat) (max_throttling : Bool)
    (cooling_device_info_map : List (String × CdevInfo))
    (cdev_all_request_map : List (String × List Int))
    (power_status_map : List (String × F)) (low_power_device_check : Bool)
    (cdev_name : String) (bi : BindedCdevInfo) (ctx : AllocCtx) : PassStep :=
  let body : AllocCtx → PassStep := fun ctx1 =>
    let cdev_weight := bi.cdev_weight_for_pid curr_severity
    let cdev_power_budget0 := fmul ctx1.total_power_budget (fdiv cdev_weight ctx1.total_weight)
    let cdev_power_adjustment := fsub cdev_power_budget0 ctx1.last_updated_avg_power
    if low_power_device_check then
      if flt (some 0) cdev_power_adjustment
          && decide (atD ctx1.status.pid_cdev_request_map cdev_name 0 = 0) then
        PassStep.go { ctx1 with
          allocated_power := fadd ctx1.allocated_power ctx1.last_updated_avg_power,
          allocated_weight := fadd ctx1.allocated_weight cdev_weight,
          allocated_cdev := cdev_name :: ctx1.allocated_cdev }
      else PassStep.go ctx1
    else
      let cdev_info := atD cooling_device_info_map cdev_name defaultCdev
      if flt cdev_power_adjustment (some 0)
          && decide (atD ctx1.status.pid_cdev_request_map cdev_name 0 = cdev_info.max_state) then
        PassStep.go ctx1
      else
        let b1 :=
          if ! bi.enabled then s2p cdev_info 0
          else if ! ctx1.power_data_invalid && decide (bi.power_rail ≠ "") then
            let cdev_curr_power_budget := atD ctx1.status.pid_power_budget_map cdev_name none
            if flt cdev_curr_power_budget ctx1.last_updated_avg_power then
              fadd cdev_curr_power_budget (fmul cdev_power_adjustment
                (fdiv cdev_curr_power_budget ctx1.last_updated_avg_power))
            else fadd cdev_curr_power_budget cdev_power_adjustment
          else fmul ctx1.total_power_budget (fdiv cdev_weight ctx1.total_weight)
        let b2 :=
          if (s2p cdev_info 0).isSome && flt (s2p cdev_info 0) b1 then s2p cdev_info 0
          else if flt b1 (some 0) then some 0
          else b1
        match getCdevMaxRequest cdev_all_request_map cdev_name with
        | none => PassStep.abort ctx1
        | some max_cdev_vote =>
          let curr_cdev_vote := atD ctx1.status.pid_cdev_request_map cdev_name 0
          let b3 :=
            if ! max_throttling then
              let b2a :=
                if decide (bi.max_release_step ≠ intMax)
                    && (ctx1.power_data_invalid || flt (some 0) cdev_power_adjustment) then
                  if ! ctx1.power_data_invalid && decide (curr_cdev_vote < max_cdev_vote) then
                    s2pZ cdev_info curr_cdev_vote
                  else
                    let step := releaseStepWalk cdev_info (bi.limit_info curr_severity)
                      curr_cdev_vote bi.max_release_step
                    let tstate := max (curr_cdev_vote - step) 0
                    fminStd b2 (s2pZ cdev_info tstate)
                else b2
              let b2b :=
                if decide (bi.max_throttle_step ≠ intMax)
                    && (ctx1.power_data_invalid || flt cdev_power_adjustment (some 0)) then
                  let step := throttleStepWalk cdev_info (bi.cdev_ceiling curr_severity)
                    curr_cdev_vote bi.max_throttle_step
                  let tstate := min (curr_cdev_vote + step) (bi.cdev_ceiling curr_severity)
                  fmaxStd b2a (s2pZ cdev_info tstate)
                else b2a
              b2b
            else b2
          let newBudgets := updateA ctx1.status.pid_power_budget_map cdev_name b3
          PassStep.go { ctx1 with status := { ctx1.status with pid_power_budget_map := newBudgets } }
  if ctx.allocated_cdev.contains cdev_name then PassStep.go ctx
  else if ctx.power_data_invalid then body ctx
  else if bi.power_rail = "" then PassStep.stop { ctx with power_data_invalid := true }
  else
    let lap := (lookupA power_status_map bi.power_rail).getD none
    if lap.isNone then
      PassStep.stop { ctx with last_updated_avg_power := lap, power_data_invalid := true }
    else if bi.throttling_with_power_link then
      PassStep.abort { ctx with last_updated_avg_power := lap }
    else body { ctx with last_updated_avg_power := lap }

/-- One full pass of the allocation loop over the bindings; the returned
boolean is false when the pass aborted with `return false`. -/
def allocPass (curr_severity : Nat) (max_throttling : Bool)
    (cooling_device_info_map : List (String × CdevInfo))
    (cdev_all_request_map : List (String × List Int))
    (power_status_map : List (String × F)) (low_power_device_check : Bool) :
    List (String × BindedCdevInfo) → AllocCtx → Bool × AllocCtx
  | [], ctx => (true, ctx)
  | (cdev_name, bi) :: rest, ctx =>
    match allocOne curr_severity max_throttling cooling_device_info_map cdev_all_request_map
        power_status_map low_power_device_check cdev_name bi ctx with
    | PassStep.abort ctx2 => (false, ctx2)
    | PassStep.stop ctx2 => (true, ctx2)
    | PassStep.go ctx2 =>
      allocPass curr_severity max_throttling cooling_device_info_map cdev_all_request_map
        power_status_map low_power_device_check rest ctx2

/-- The between-pass bookkeeping of the allocation while-loop. -/
def allocAdjust (ctx : AllocCtx) : AllocCtx :=
  if ! ctx.power_data_invalid then
    { ctx with
      total_power_budget := fsub ctx.total_power_budget ctx.allocated_power,
      total_weight := fsub ctx.total_weight ctx.allocated_weight,
      allocated_power := some 0,
      allocated_weight := some 0 }
  else { ctx with allocated_power := some 0, allocated_weight := some 0 }

/-- Model of `ThermalThrottling::allocatePowerToCdev`. -/
def allocatePowerToCdev (temp_name : String) (temp_value : F) (sensor_info : SensorInfo)
    (curr_severity : Nat) (time_elapsed_ms : Nat)
    (power_status_map : List (String × F))
    (cooling_device_info_map : List (String × CdevInfo))
    (max_throttling : Bool) (sensor_predictions : List F)
    (tt : ThermalThrottling) : Bool × ThermalThrottling :=
  let ti := sensor_info.throttling_info
  let st0 := atD tt.thermal_throttling_status_map temp_name initStatus
  let upd := updatePowerBudget temp_value sensor_info cooling_device_info_map
    tt.cdev_all_request_map time_elapsed_ms curr_severity max_throttling sensor_predictions st0
  let st1 := upd.1
  let total1 :=
    if ! ti.excluded_power_info_map.isEmpty then
      fmaxStd (fsub upd.2 (computeExcludedPower sensor_info curr_severity power_status_map))
        (some 0)
    else upd.2
  let bindings := ccdrBindings sensor_info st1
  let seeded := bindings.foldl
    (fun (acc : F × List String) p =>
      let w := p.2.cdev_weight_for_pid curr_severity
      if ! p.2.enabled then acc
      else if w.isNone || feq w (some 0) then (acc.1, p.1 :: acc.2)
      else (fadd acc.1 w, acc.2))
    (some 0, [])
  let ctx0 : AllocCtx :=
    { total_power_budget := total1,
      total_weight := seeded.1,
      last_updated_avg_power := none,
      allocated_power := some 0,
      allocated_weight := some 0,
      power_data_invalid := false,
      allocated_cdev := seeded.2,
      status := st1 }
  let finish : Bool → AllocCtx → Bool × ThermalThrottling := fun ok ctx =>
    let sm := setA tt.thermal_throttling_status_map temp_name ctx.status
    (ok, { tt with thermal_throttling_status_map := sm })
  match allocPass curr_severity max_throttling cooling_device_info_map tt.cdev_all_request_map
      power_status_map true bindings ctx0 with
  | (false, ctxF) => finish false ctxF
  | (true, ctx1) =>
    let ctx2 := allocAdjust ctx1
    match allocPass curr_severity max_throttling cooling_device_info_map tt.cdev_all_request_map
        power_status_map false bindings ctx2 with
    | (false, ctxF) => finish false ctxF
    | (true, ctx3) => finish true (allocAdjust ctx3)

/-- Model of `ThermalThrottling::parseProfileProperty`; the external
`vendor.thermal.<sensor>.profile` system property is an explicit input. -/
def parseProfileProperty (sensor_name : String) (sensor_info : SensorInfo)
    (profile_property : String) (tt : ThermalThrottling) : ThermalThrottling :=
  let ti := sensor_info.throttling_info
  let st := atD tt.thermal_throttling_status_map sensor_name initStatus
  if profile_property = "" || (lookupA ti.profile_map profile_property).isSome then
    if profile_property ≠ st.profile then
      let sm := setA tt.thermal_throttling_status_map sensor_name
        { st with profile := profile_property }
      { tt with thermal_throttling_status_map := sm }
    else tt
  else
    let sm := setA tt.thermal_throttling_status_map sensor_name { st with profile := "" }
    { tt with thermal_throttling_status_map := sm }

/-- The budget-to-state mapping of `updateCdevRequestByPower`: the first
index `i < size - 1` whose state power is at or below the budget, falling
through to `size - 1`. -/
def budgetToState (cdev_info : CdevInfo) (budget : F) : Nat :=
  let n := cdev_info.state2power.length
  ((List.range (n - 1)).find? fun i => fge budget (s2p cdev_info i)).getD (n - 1)

/-- Model of `ThermalThrottling::updateCdevRequestByPower`. -/
def updateCdevRequestByPower (sensor_name : String)
    (cooling_device_info_map : List (String × CdevInfo)) (tt : ThermalThrottling) :
    ThermalThrottling :=
  let st := atD tt.thermal_throttling_status_map sensor_name initStatus
  let st2 := st.pid_power_budget_map.foldl
    (fun acc p =>
      let cdev_info := atD cooling_device_info_map p.1 defaultCdev
      let i : Int := (budgetToState cdev_info p.2 : Int)
      { acc with pid_cdev_request_map := updateA acc.pid_cdev_request_map p.1 i })
    st
  let sm := setA tt.thermal_throttling_status_map sensor_name st2
  { tt with thermal_throttling_status_map := sm }

/-- Model of `ThermalThrottling::updateCdevRequestBySeverity`. -/
def updateCdevRequestBySeverity (sensor_name : String) (sensor_info : SensorInfo)
    (curr_severity : Nat) (tt : ThermalThrottling) : ThermalThrottling :=
  let st := atD tt.thermal_throttling_status_map sensor_name initStatus
  let bindings := ccdrBindings sensor_info st
  let st2 := bindings.foldl
    (fun acc p =>
      if (lookupA acc.hardlimit_cdev_request_map p.1).isNone then acc
      else
        let v : Int := if p.2.enabled then p.2.limit_info curr_severity else 0
        { acc with hardlimit_cdev_request_map := updateA acc.hardlimit_cdev_request_map p.1 v })
    st
  let sm := setA tt.thermal_throttling_status_map sensor_name st2
  { tt with thermal_throttling_status_map := sm }

/-- The per-binding loop of `throttlingReleaseUpdate`.  A binding without a
release entry, or whose power rail is absent from the power status map,
aborts the whole call with `return false`, leaving every not-yet-visited
release step untouched. -/
def releaseLoop (cooling_device_info_map : List (String × CdevInfo))
    (power_status_map : List (String × F)) (severity : Nat) :
    List (String × BindedCdevInfo) → ThermalThrottlingStatus →
    Bool × ThermalThrottlingStatus
  | [], st => (true, st)
  | (cdev_name, bi) :: rest, st =>
    if (lookupA st.throttling_release_map cdev_name).isNone
        || (lookupA power_status_map bi.power_rail).isNone then
      (false, st)
    else
      let max_state := (atD cooling_device_info_map cdev_name defaultCdev).max_state
      let release_step := atD st.throttling_release_map cdev_name 0
      let avg_power := (lookupA power_status_map bi.power_rail).getD none
      if avg_power.isNone || flt avg_power (some 0) then
        let v : Int := if bi.throttling_with_power_link then max_state else 0
        releaseLoop cooling_device_info_map power_status_map severity rest
          { st with throttling_release_map := updateA st.throttling_release_map cdev_name v }
      else
        let is_over_budget :=
          if ! bi.high_power_check then ! flt avg_power (bi.power_thresholds severity)
          else ! flt (bi.power_thresholds severity) avg_power
        let rs2 : Int :=
          match bi.release_logic with
          | ReleaseLogic.INCREASE =>
            if ! is_over_budget then
              if |release_step| < max_state then release_step - 1 else release_step
            else 0
          | ReleaseLogic.DECREASE =>
            if ! is_over_budget then
              if release_step < max_state then release_step + 1 else release_step
            else 0
          | ReleaseLogic.STEPWISE =>
            if ! is_over_budget then
              if release_step < max_state then release_step + 1 else release_step
            else
              if |release_step| < max_state then release_step - 1 else release_step
          | ReleaseLogic.RELEASE_TO_FLOOR =>
            if is_over_budget then 0 else max_state
          | ReleaseLogic.NONE => release_step
        releaseLoop cooling_device_info_map power_status_map severity rest
          { st with throttling_release_map := updateA st.throttling_release_map cdev_name rs2 }

/-- Model of `ThermalThrottling::throttlingReleaseUpdate`. -/
def throttlingReleaseUpdate (sensor_name : String)
    (cooling_device_info_map : List (String × CdevInfo))
    (power_status_map : List (String × F)) (severity : Nat)
    (sensor_info : SensorInfo) (tt : ThermalThrottling) : Bool × ThermalThrottling :=
  match lookupA tt.thermal_throttling_status_map sensor_name with
  | none => (false, tt)
  | some st =>
    let r := releaseLoop cooling_device_info_map power_status_map severity
      sensor_info.throttling_info.binded_cdev_info_map st
    let sm := setA tt.thermal_throttling_status_map sensor_name r.2
    (r.1, { tt with thermal_throttling_status_map := sm })

/-- The caller-side cleanup after a failed allocation: every
`pid_cdev_request` entry of the sensor is zeroed for the tick. -/
def zeroPidRequests (st : ThermalThrottlingStatus) : ThermalThrottlingStatus :=
  { st with pid_cdev_request_map := st.pid_cdev_request_map.map (fun p => (p.1, (0 : Int))) }

/-- Model of `ThermalThrottling::thermalThrottlingUpdate`: the control tick. -/
def thermalThrottlingUpdate (temp_name : String) (temp_value : F)
    (sensor_info : SensorInfo) (curr_severity : Nat) (time_elapsed_ms : Nat)
    (power_status_map : List (String × F))
    (cooling_device_info_map : List (String × CdevInfo))
    (max_throttling : Bool) (sensor_predictions : List F) (profile_property : String)
    (tt : ThermalThrottling) : ThermalThrottling :=
  if (lookupA tt.thermal_throttling_status_map temp_name).isNone then tt
  else
    let tt1 :=
      if ! sensor_info.throttling_info.profile_map.isEmpty then
        parseProfileProperty temp_name sensor_info profile_property tt
      else tt
    let st1 := atD tt1.thermal_throttling_status_map temp_name initStatus
    let tt2 :=
      if ! st1.pid_power_budget_map.isEmpty then
        let ar := allocatePowerToCdev temp_name temp_value sensor_info curr_severity
          time_elapsed_ms power_status_map cooling_device_info_map max_throttling
          sensor_predictions tt1
        let ttB :=
          if ! ar.1 then
            let stz := zeroPidRequests (atD ar.2.thermal_throttling_status_map temp_name initStatus)
            let sm := setA ar.2.thermal_throttling_status_map temp_name stz
            { ar.2 with thermal_throttling_status_map := sm }
          else ar.2
        updateCdevRequestByPower temp_name cooling_device_info_map ttB
      else tt1
    let st2 := atD tt2.thermal_throttling_status_map temp_name initStatus
    let tt3 :=
      if ! st2.hardlimit_cdev_request_map.isEmpty then
        updateCdevRequestBySeverity temp_name sensor_info curr_severity tt2
      else tt2
    let st3 := atD tt3.thermal_throttling_status_map temp_name initStatus
    if ! st3.throttling_release_map.isEmpty then
      (throttlingReleaseUpdate temp_name cooling_device_info_map power_status_map curr_severity
        sensor_info tt3).2
    else tt3

/-- The request fusion of `computeCoolingDevicesRequest`: combine the PID and
hard-limit requests, apply the release step (checking the floor only when a
release step is active) and cap at the ceiling. -/
def requestStateOf (bi : BindedCdevInfo) (curr_severity : Nat)
    (pid_cdev_request hardlimit_cdev_request release_step : Int) : Int :=
  let cdev_ceiling := bi.cdev_ceiling curr_severity
  let cdev_floor := bi.cdev_floor_with_power_link curr_severity
  let r0 := max pid_cdev_request hardlimit_cdev_request
  let r1 :=
    if release_step ≠ 0 then
      max (if r0 ≤ release_step then 0 else r0 - release_step) cdev_floor
    else r0
  min r1 cdev_ceiling

/-- The final request that `computeCoolingDevicesRequest` computes for one
CDEV of the sensor, from the current per-sensor request maps. -/
def ccdrReq (st : ThermalThrottlingStatus) (bindings : List (String × BindedCdevInfo))
    (curr_severity : Nat) (cdev_name : String) : Int :=
  requestStateOf (atD bindings cdev_name defaultBinded) curr_severity
    (atD st.pid_cdev_request_map cdev_name 0)
    (atD st.hardlimit_cdev_request_map cdev_name 0)
    (atD st.throttling_release_map cdev_name 0)

/-- The per-CDEV loop of `computeCoolingDevicesRequest`, returning the new
`cdev_status_map`, the new vote registry and the notification list. -/
def ccdrLoop (st : ThermalThrottlingStatus) (bindings : List (String × BindedCdevInfo))
    (curr_severity : Nat) :
    List (String × Int) → List (String × List Int) →
    List (String × Int) × List (String × List Int) × List String
  | [], reg => ([], reg, [])
  | (cdev_name, cur) :: rest, reg =>
    let req := ccdrReq st bindings curr_severity cdev_name
    if cur ≠ req then
      let ur := updateCdevMaxRequestAndNotifyIfChange reg cdev_name cur req
      let r2 := ccdrLoop st bindings curr_severity rest ur.1
      ((cdev_name, req) :: r2.1, r2.2.1, if ur.2 then cdev_name :: r2.2.2 else r2.2.2)
    else
      let r2 := ccdrLoop st bindings curr_severity rest reg
      ((cdev_name, cur) :: r2.1, r2.2.1, r2.2.2)

/-- Model of `ThermalThrottling::computeCoolingDevicesRequest`: fuse the requests of
every CDEV in the sensor status map, push changed votes into the registry and
return the CDEVs whose aggregated maximum changed. -/
def computeCoolingDevicesRequest (sensor_name : String) (sensor_info : SensorInfo)
    (curr_severity : Nat) (tt : ThermalThrottling) : ThermalThrottling × List String :=
  match lookupA tt.thermal_throttling_status_map sensor_name with
  | none => (tt, [])
  | some st =>
    let bindings := ccdrBindings sensor_info st
    let r := ccdrLoop st bindings curr_severity st.cdev_status_map tt.cdev_all_request_map
    let sm := setA tt.thermal_throttling_status_map sensor_name { st with cdev_status_map := r.1 }
    ({ thermal_throttling_status_map := sm, cdev_all_request_map := r.2.1 }, r.2.2)

/-- The requests currently recorded by the sensors for a CDEV: the collected
`cdev_status_map` entries across the status map. -/
def sensorVotes (status_map : List (String × ThermalThrottlingStatus)) (cdev_name : String) :
    List Int :=
  status_map.filterMap fun p => lookupA p.2.cdev_status_map cdev_name

/-- Spec-side reading of claim C1: the last severity at or below the current
one whose `s_power` is defined. -/
def specLastValidAtOrBelow (sp : Nat → F) (curr_severity : Nat) : Option Nat :=
  ((List.range 7).filter fun s => decide (s ≤ curr_severity) && (sp s).isSome).getLast?

/-- The first severity strictly above the current one whose `s_power` is
defined (what the source actually returns when it exists). -/
def firstValidAbove (sp : Nat → F) (curr_severity : Nat) : Option Nat :=
  (List.range 7).find? fun s => (sp s).isSome && decide (curr_severity < s)

/-- The greatest severity with a defined `s_power`. -/
def lastValid (sp : Nat → F) : Option Nat :=
  ((List.range 7).filter fun s => (sp s).isSome).getLast?

/-- Spec-side reading of claim C9: the CDEV has a nonzero PID weight, a
nonzero hard limit or a defined power threshold at some severity. -/
def specCdevStatusPresent (bi : BindedCdevInfo) : Prop :=
  (∃ s < 7, (bi.cdev_weight_for_pid s).isSome ∧ bi.cdev_weight_for_pid s ≠ some 0)
  ∨ (∃ s < 7, bi.limit_info s ≠ 0)
  ∨ (∃ s < 7, (bi.power_thresholds s).isSome)

/-- Constant-zero gain table used by the concrete configurations. -/
def zeroF : Nat → F := fun _ => some 0

/-- Binding of the transient-blending scenario: unit weight, ceiling 10. -/
def exBiC5 : BindedCdevInfo :=
  { defaultBinded with cdev_weight_for_pid := fun _ => some 1, cdev_ceiling := fun _ => 10 }

/-- Configuration of the transient-blending scenario: `tran_cycle = 4`,
`s_power` defined at LIGHT (800) and SEVERE (600), allocation range
`[500, 700]`, all gains zero. -/
def exInfoC5 : ThrottlingInfo where
  k_po := zeroF
  k_pu := zeroF
  k_io := zeroF
  k_iu := zeroF
  k_d := zeroF
  i_max := fun _ => some 10000
  max_alloc_power := fun _ => some 700
  min_alloc_power := fun _ => some 500
  s_power := fun s => if s = 1 then some 800 else if s = 3 then some 600 else none
  i_cutoff := fun _ => some (-1000)
  i_default := some 0
  i_default_pct := none
  tran_cycle := 4
  excluded_power_info_map := []
  binded_cdev_info_map := [("c", exBiC5)]
  profile_map := []

/-- Sensor of the transient-blending scenario. -/
def exSiC5 : SensorInfo where
  hot_thresholds := fun _ => some 45
  multiplier := some 1
  predictor_info := none
  throttling_info := exInfoC5

/-- Status before the target change: previously at state 1 with a stored
budget of 1000. -/
def exStC5 : ThermalThrottlingStatus :=
  { initStatus with
    pid_power_budget_map := [("c", intMaxF)],
    pid_cdev_request_map := [("c", 0)],
    prev_err := some 0,
    i_budget := some 0,
    prev_target := 1,
    prev_power_budget := some 1000 }

/-- One control tick of the transient-blending scenario at severity SEVERE
with the sensor exactly on target. -/
def tickC5 (st : ThermalThrottlingStatus) : ThermalThrottlingStatus × F :=
  updatePowerBudget (some 45) exSiC5 [] [] 100 3 false [] st

/-- First tick after the target change. -/
def tick1C5 : ThermalThrottlingStatus × F := tickC5 exStC5

/-- Second tick after the target change. -/
def tick2C5 : ThermalThrottlingStatus × F := tickC5 tick1C5.1

/-- Third tick after the target change. -/
def tick3C5 : ThermalThrottlingStatus × F := tickC5 tick2C5.1

/-- Fourth tick after the target change. -/
def tick4C5 : ThermalThrottlingStatus × F := tickC5 tick3C5.1

/-- The blending-free variant of the scenario (`tran_cycle = 0`). -/
def exInfoC4 : ThrottlingInfo := { exInfoC5 with tran_cycle := 0 }

/-- Sensor of the blending-free variant. -/
def exSiC4 : SensorInfo := { exSiC5 with throttling_info := exInfoC4 }

/-- One tick of the blending-free variant. -/
def tickC4 : ThermalThrottlingStatus × F :=
  updatePowerBudget (some 45) exSiC4 [] [] 100 3 false [] exStC5

/-- Cooling device of the integral-initialization scenario. -/
def exCdevC6 : CdevInfo where
  state2power := [some 100, some 80, some 60, some 40]
  max_state := 3

/-- Configuration of the integral-initialization scenario:
`i_default_pct = 50`. -/
def exInfoC6 : ThrottlingInfo :=
  { exInfoC5 with
    s_power := fun s => if s = 1 then some 100 else none,
    min_alloc_power := zeroF,
    max_alloc_power := fun _ => some 10000,
    tran_cycle := 0,
    i_default := some 77,
    i_default_pct := some 50 }

/-- Sensor of the integral-initialization scenario. -/
def exSiC6 : SensorInfo where
  hot_thresholds := fun _ => some 50
  multiplier := some 1
  predictor_info := none
  throttling_info := exInfoC6

/-- Fresh status of the integral-initialization scenario (`i_budget` NaN). -/
def exStC6 : ThermalThrottlingStatus :=
  { initStatus with
    pid_power_budget_map := [("c", intMaxF)],
    pid_cdev_request_map := [("c", 0)] }

/-- The first tick of the integral-initialization scenario, with the CDEV
registry holding votes `{3, 0}` (maximum vote 3). -/
def updC6 : ThermalThrottlingStatus × F :=
  updatePowerBudget (some 50) exSiC6 [("c", exCdevC6)] [("c", [3, 0])] 100 1 false [] exStC6

/-- Cooling device of the power-link scenario. -/
def exCdevC7 : CdevInfo where
  state2power := [some 2000, some 1500, some 1000, some 500, some 0]
  max_state := 4

/-- Power-linked binding whose rail is `"r"`. -/
def exBiC7 : BindedCdevInfo :=
  { defaultBinded with
    cdev_weight_for_pid := fun _ => some 1,
    cdev_ceiling := fun _ => 10,
    power_rail := "r",
    throttling_with_power_link := true }

/-- Configuration of the power-link scenario. -/
def exInfoC7 : ThrottlingInfo :=
  { exInfoC6 with
    i_default := some 0,
    i_default_pct := none,
    binded_cdev_info_map := [("c", exBiC7)] }

/-- Sensor of the power-link scenario. -/
def exSiC7 : SensorInfo := { exSiC6 with throttling_info := exInfoC7 }

/-- Status of the power-link scenario. -/
def exStC7 : ThermalThrottlingStatus :=
  { initStatus with
    pid_power_budget_map := [("c", intMaxF)],
    pid_cdev_request_map := [("c", 0)],
    i_budget := some 0,
    prev_err := some 0 }

/-- Controller state of the power-link scenario. -/
def exTTC7 : ThermalThrottling where
  thermal_throttling_status_map := [("s", exStC7)]
  cdev_all_request_map := [("c", [0])]

/-- The allocation call with the rail data still being collected (NaN). -/
def allocC7nan : Bool × ThermalThrottling :=
  allocatePowerToCdev "s" (some 50) exSiC7 1 100 [("r", none)] [("c", exCdevC7)] false [] exTTC7

/-- The allocation call with valid rail data. -/
def allocC7ok : Bool × ThermalThrottling :=
  allocatePowerToCdev "s" (some 50) exSiC7 1 100 [("r", some 100)] [("c", exCdevC7)]
    false [] exTTC7

/-- A hard-limit-only binding (limit 2 at every severity). -/
def exBiC8a : BindedCdevInfo :=
  { defaultBinded with limit_info := fun _ => 2, cdev_ceiling := fun _ => 10 }

/-- Configuration of the failed-registration scenario: CDEV `"a"` is known,
CDEV `"z"` is not in the cooling device map. -/
def exInfoC8 : ThrottlingInfo :=
  { exInfoC4 with binded_cdev_info_map := [("a", exBiC8a), ("z", defaultBinded)] }

/-- Sensor of the failed-registration scenario. -/
def exSiC8 : SensorInfo := { exSiC5 with throttling_info := exInfoC8 }

/-- Cooling device map of the failed-registration scenario (no `"z"`). -/
def exCoolC8 : List (String × CdevInfo) := [("a", exCdevC7)]

/-- The failing registration (unknown bound CDEV `"z"`). -/
def regC8 : Bool × ThermalThrottling :=
  registerThermalThrottling "s" (some exInfoC8) exCoolC8 ⟨[], []⟩

/-- A control tick attempted right after the failed registration. -/
def ttuC8 : ThermalThrottling :=
  thermalThrottlingUpdate "s" (some 45) exSiC8 1 100 [] exCoolC8 false [] "" regC8.2

/-- A binding with only a power threshold (all weights NaN, all limits 0). -/
def exBiC9 : BindedCdevInfo :=
  { defaultBinded with
    power_rail := "r",
    power_thresholds := fun s => if s = 0 then some 5 else none }

/-- Configuration of the threshold-only registration scenario. -/
def exInfoC9 : ThrottlingInfo := { exInfoC5 with binded_cdev_info_map := [("c", exBiC9)] }

/-- The successful registration of the threshold-only scenario. -/
def regC9 : Bool × ThermalThrottling :=
  registerThermalThrottling "s" (some exInfoC9) [("c", exCdevC7)] ⟨[], []⟩

/-- A hard-limit binding with limit 3, used by the clear scenario. -/
def exBiC3 : BindedCdevInfo :=
  { defaultBinded with limit_info := fun _ => 3, cdev_ceiling := fun _ => 10 }

/-- Configuration of the clear scenario. -/
def exInfoC3 : ThrottlingInfo :=
  { exInfoC4 with binded_cdev_info_map := [("c", exBiC3)] }

/-- Sensor of the clear scenario. -/
def exSiC3 : SensorInfo := { exSiC5 with throttling_info := exInfoC3 }

/-- Registration of the clear scenario. -/
def regC3 : Bool × ThermalThrottling :=
  registerThermalThrottling "s" (some exInfoC3) [("c", exCdevC7)] ⟨[], []⟩

/-- A hard-limit tick of the clear scenario at severity LIGHT. -/
def ttuC3 : ThermalThrottling :=
  thermalThrottlingUpdate "s" (some 45) exSiC3 1 100 [] [("c", exCdevC7)] false [] "" regC3.2

/-- The combiner run of the clear scenario: the sensor vote becomes 3. -/
def ccdrC3 : ThermalThrottling × List String :=
  computeCoolingDevicesRequest "s" exSiC3 1 ttuC3

/-- Clearing the sensor after it voted 3. -/
def clearC3 : ThermalThrottling := clearThrottlingData "s" ccdrC3.1

/-- Status of the registry scenario: recorded vote 0, PID request 2. -/
def exStC2 : ThermalThrottlingStatus :=
  { initStatus with
    cdev_status_map := [("c", 0)],
    pid_cdev_request_map := [("c", 2)] }

/-- Controller state of the registry scenario. -/
def exTTC2 : ThermalThrottling where
  thermal_throttling_status_map := [("s", exStC2)]
  cdev_all_request_map := [("c", [0])]

/-- Sensor of the PID-target-state scenario: `s_power` defined at severities
1 and 3 only. -/
def exSiC1 : SensorInfo :=
  { exSiC5 with throttling_info :=
      { exInfoC5 with s_power := fun s =>
          if s = 1 then some 1000 else if s = 3 then some 500 else none } }

/-- Release binding on rail `"ra"` with DECREASE logic. -/
def exBiC10a : BindedCdevInfo :=
  { defaultBinded with
    power_rail := "ra",
    power_thresholds := fun _ => some 50,
    release_logic := ReleaseLogic.DECREASE }

/-- Release binding on rail `"rb"` (absent from the power status map). -/
def exBiC10b : BindedCdevInfo := { defaultBinded with power_rail := "rb" }

/-- Release binding on rail `"ra"`, placed after the failing one. -/
def exBiC10d : BindedCdevInfo := { defaultBinded with power_rail := "ra" }

/-- Configuration of the release-abort scenario. -/
def exInfoC10 : ThrottlingInfo :=
  { exInfoC4 with
    binded_cdev_info_map := [("a", exBiC10a), ("b", exBiC10b), ("d", exBiC10d)] }

/-- Sensor of the release-abort scenario. -/
def exSiC10 : SensorInfo := { exSiC5 with throttling_info := exInfoC10 }

/-- Status of the release-abort scenario, with release steps 0, 1, 7. -/
def exStC10 : ThermalThrottlingStatus :=
  { initStatus with throttling_release_map := [("a", 0), ("b", 1), ("d", 7)] }

/-- Controller state of the release-abort scenario. -/
def exTTC10 : ThermalThrottling where
  thermal_throttling_status_map := [("s", exStC10)]
  cdev_all_request_map := []

theorem lookupA_setA_self {α : Type} (l : List (String × α)) (k : String) (v : α) :
    lookupA (setA l k v) k = some v := by
  induction l with
  | nil => simp [setA, lookupA]
  | cons p rest ih =>
    obtain ⟨k1, v1⟩ := p
    by_cases h : k1 = k
    · simp [setA, lookupA, h]
    · simp [setA, lookupA, h, ih]

theorem lookupA_setA_ne {α : Type} (l : List (String × α)) (k c : String) (v : α)
    (h : k ≠ c) : lookupA (setA l k v) c = lookupA l c := by
  induction l with
  | nil => simp [setA, lookupA, h]
  | cons p rest ih =>
    obtain ⟨k1, v1⟩ := p
    by_cases h1 : k1 = k
    · subst h1
      simp [setA, lookupA, h]
    · simp [setA, lookupA, h1, ih]

theorem lookupA_updateA_ne {α : Type} (l : List (String × α)) (k c : String) (v : α)
    (h : k ≠ c) : lookupA (updateA l k v) c = lookupA l c := by
  induction l with
  | nil => simp [updateA]
  | cons p rest ih =>
    obtain ⟨k1, v1⟩ := p
    by_cases h1 : k1 = k
    · subst h1
      simp [updateA, lookupA, h]
    · simp [updateA, lookupA, h1, ih]

theorem regMaxStep_comm (m : Option Int) (a b : Int) :
    regMaxStep (regMaxStep m a) b = regMaxStep (regMaxStep m b) a := by
  cases m with
  | none => simp [regMaxStep, max_comm]
  | some c =>
    simp only [regMaxStep, Option.some.injEq]
    rw [max_assoc, max_assoc, max_comm a b]

theorem foldl_regMaxStep_perm {l l' : List Int} (h : l.Perm l') :
    ∀ m, l.foldl regMaxStep m = l'.foldl regMaxStep m := by
  induction h with
  | nil => intro m; rfl
  | cons x _ ih => intro m; simpa using ih (regMaxStep m x)
  | swap x y l => intro m; simp [List.foldl, regMaxStep_comm]
  | trans _ _ ih1 ih2 => intro m; rw [ih1, ih2]

theorem maxO_perm {l l' : List Int} (h : l.Perm l') : maxO l = maxO l' :=
  foldl_regMaxStep_perm h none

theorem regMax_perm {l l' : List Int} (h : l.Perm l') : regMax l = regMax l' := by
  rw [regMax, regMax, maxO_perm h]

theorem gtsLoop_eq (sp : Nat → F) (curr_severity : Nat) :
    ∀ (l : List Nat) (ts : Nat),
      gtsLoop sp curr_severity l ts =
        (l.find? fun s => (sp s).isSome && decide (curr_severity < s)).getD
          (((l.filter fun s => (sp s).isSome).getLast?).getD ts) := by
  intro l
  induction l with
  | nil => intro ts; rfl
  | cons s rest ih =>
    intro ts
    cases hsp : sp s with
    | none =>
      rw [gtsLoop]
      simp [hsp, List.find?_cons, List.filter_cons, ih ts]
    | some v =>
      by_cases hlt : curr_severity < s
      · rw [gtsLoop]
        simp [hsp, hlt, List.find?_cons]
      · rw [gtsLoop]
        simp only [hsp, Option.isNone_some, Bool.false_eq_true, if_false, hlt, if_false,
          ite_false]
        rw [ih s]
        have hfind : (List.find? (fun s => (sp s).isSome && decide (curr_severity < s))
            (s :: rest)) = List.find? (fun s => (sp s).isSome && decide (curr_severity < s))
            rest := by
          rw [List.find?_cons]
          simp [hsp, hlt]
        rw [hfind]
        have hfil : (List.filter (fun s => (sp s).isSome) (s :: rest)) =
            s :: List.filter (fun s => (sp s).isSome) rest := by
          rw [List.filter_cons]
          simp [hsp]
        rw [hfil]
        cases hf : List.find? (fun s => (sp s).isSome && decide (curr_severity < s)) rest with
        | some w => simp
        | none =>
          simp only [Option.getD_none]
          cases hrest : List.filter (fun s => (sp s).isSome) rest with
          | nil => simp
          | cons a t =>
            cases hgl : (a :: t).getLast? with
            | none => simp at hgl
            | some b => simp [hgl]

/-- C1 (counterexample): with `s_power` defined exactly at severities 1 and 3
and current severity 2 (MODERATE), a valid severity at or below the current
one exists (the last such is 1), yet `getTargetStateOfPID` returns 3,
exceeding the current severity — the loop records the first valid severity
strictly above `curr` before breaking. -/
theorem C1_counterexample :
    getTargetStateOfPID exSiC1 2 = 3 ∧
    specLastValidAtOrBelow exSiC1.throttling_info.s_power 2 = some 1 ∧ 2 < 3 := by
  refine ⟨by decide, by decide, by decide⟩

/-- C1 (amended): `getTargetStateOfPID` returns the first severity with
non-NaN `s_power` strictly above the current severity whenever one exists
(even when valid severities at or below the current one exist); otherwise it
returns the greatest severity with non-NaN `s_power`, and 0 when no severity
is valid. -/
theorem C1_amended_target_state (sensor_info : SensorInfo) (curr_severity : Nat) :
    getTargetStateOfPID sensor_info curr_severity =
      (firstValidAbove sensor_info.throttling_info.s_power curr_severity).getD
        ((lastValid sensor_info.throttling_info.s_power).getD 0) := by
  rw [getTargetStateOfPID, gtsLoop_eq, firstValidAbove, lastValid]

/-- C5 (counterexample): with `tran_cycle = 4`, a previous budget of 1000 and
a clamped budget of 600 (delta 400), the first tick after the target change
returns 900 = 600 + 400·(3/4); the claim expects it to add the full delta,
i.e. 600 + 400·(4/4) = 1000. -/
theorem C5_counterexample :
    tick1C5.2 = some 900 ∧ exStC5.prev_power_budget = some 1000 ∧
    tick1C5.1.budget_transient = some 400 ∧ (900 : ℚ) ≠ 600 + 400 * (4 / 4) := by
  with_unfolding_all decide

/-- C5 (amended): on a target change the counter is set to `n - 1`, so with
`n = 4` the ticks following the change add 3/4, 2/4 and 1/4 of the initial
delta `budget_transient = prev_power_budget - clamped budget`, and the fourth
tick already adds 0. -/
theorem C5_amended_transient :
    tick1C5.1.budget_transient = some 400 ∧
    tick1C5.2 = some (600 + 400 * (3 / 4)) ∧
    tick2C5.2 = some (600 + 400 * (2 / 4)) ∧
    tick3C5.2 = some (600 + 400 * (1 / 4)) ∧
    tick4C5.2 = some 600 := by
  with_unfolding_all decide

/-- C6 (code bug): on the first tick, the source assigns the boolean result
of `getCdevMaxRequest` over the out-parameter `max_cdev_vote`, so with the
registry holding votes `{3, 0}` (maximum 3), `state2power = [100, 80, 60, 40]`
and `i_default_pct = 50`, the code initializes `i_budget` to
`state2power[1] * 50 / 100 = 40`, while the claim (and the evident intent)
gives `state2power[3] * 50 / 100 = 20`. -/
theorem C6_code_bug_eval :
    updC6.1.i_budget = some 40 ∧
    fmul (s2pZ exCdevC6 (regMax [3, 0])) (fdiv (some 50) (some 100)) = some 20 ∧
    (40 : ℚ) ≠ 20 := by
  with_unfolding_all decide

/-- C7 (code bug): the `return false` of `allocatePowerToCdev` sits after the
NaN check, which `break`s first, so with the power-linked CDEV rail still
collecting (NaN) the allocator returns `true` (weight-only allocation, no
zeroing by the caller), while with valid rail data it returns `false` — the
exact inverse of the claim and of the spec error taxonomy. -/
theorem C7_code_bug_eval : allocC7nan.1 = true ∧ allocC7ok.1 = false := by
  with_unfolding_all decide

/-- C8 (counterexample): registration of sensor `"s"` fails on the unknown
bound CDEV `"z"`, yet the partially initialized entry (with the hard-limit
map of the known CDEV `"a"`) stays in the status map, and a subsequent
`thermalThrottlingUpdate` tick mutates it: the hard-limit request of `"a"`
goes from 0 to 2. -/
theorem C8_counterexample :
    regC8.1 = false ∧
    lookupA (atD regC8.2.thermal_throttling_status_map "s"
      initStatus).hardlimit_cdev_request_map "a" = some 0 ∧
    lookupA (atD ttuC8.thermal_throttling_status_map "s"
      initStatus).hardlimit_cdev_request_map "a" = some 2 := by
  refine ⟨by decide, by decide, by decide⟩

/-- C3 (counterexample): after the sensor voted 3 for CDEV `"c"` (a reachable
state: registration, one hard-limit tick, one combiner run),
`clearThrottlingData` leaves the vote registry and the recorded vote
unchanged at 3 — the claim expects the registry to drop the vote to 0. -/
theorem C3_counterexample :
    lookupA clearC3.cdev_all_request_map "c" = some [3] ∧
    lookupA (atD clearC3.thermal_throttling_status_map "s"
      initStatus).cdev_status_map "c" = some 3 ∧
    some [(3 : Int)] ≠ some [(0 : Int)] := by
  with_unfolding_all decide

/-- C3 (amended): `clearThrottlingData` on a registered sensor resets
`prev_err`, `i_budget`, `prev_power_budget` to NaN, `prev_target` to NONE and
`tran_cycle` to 0, sets every `pid_power_budget` entry to `INT_MAX` and every
pid/hardlimit/release request entry to 0, but leaves the vote registry and
the sensor recorded votes (`cdev_status_map`) untouched: no registry vote is
dropped or zeroed. -/
theorem C3_amended_clear (sensor_name : String) (tt : ThermalThrottling)
    (st : ThermalThrottlingStatus)
    (h : lookupA tt.thermal_throttling_status_map sensor_name = some st) :
    (clearThrottlingData sensor_name tt).cdev_all_request_map = tt.cdev_all_request_map ∧
    lookupA (clearThrottlingData sensor_name tt).thermal_throttling_status_map sensor_name =
      some { st with
        pid_power_budget_map := st.pid_power_budget_map.map (fun p => (p.1, intMaxF)),
        pid_cdev_request_map := st.pid_cdev_request_map.map (fun p => (p.1, (0 : Int))),
        hardlimit_cdev_request_map :=
          st.hardlimit_cdev_request_map.map (fun p => (p.1, (0 : Int))),
        throttling_release_map := st.throttling_release_map.map (fun p => (p.1, (0 : Int))),
        prev_err := none,
        i_budget := none,
        prev_target := 0,
        prev_power_budget := none,
        tran_cycle := 0 } := by
  rw [clearThrottlingData, h]
  exact ⟨rfl, lookupA_setA_self _ _ _⟩

/-- Witness for C3: the amended clear theorem applied to the reachable state
of the clear scenario. -/
theorem C3_witness : clearC3.cdev_all_request_map = ccdrC3.1.cdev_all_request_map :=
  (C3_amended_clear "s" ccdrC3.1
    (atD ccdrC3.1.thermal_throttling_status_map "s" initStatus)
    (by with_unfolding_all rfl)).1

/-- Range of `std::clamp` on defined bounds: whenever the clamped value is
defined, it lies between the bounds. -/
theorem fclamp_range {v : F} {mn mx q : ℚ} (h : fclamp v (some mn) (some mx) = some q)
    (hle : mn ≤ mx) : mn ≤ q ∧ q ≤ mx := by
  cases v with
  | none => simp [fclamp, flt] at h
  | some x =>
    by_cases h1 : x < mn
    · simp only [fclamp, flt, decide_eq_true_eq, if_pos h1, Option.some.injEq] at h
      subst h
      exact ⟨le_refl _, hle⟩
    · by_cases h2 : mx < x
      · simp only [fclamp, flt, decide_eq_true_eq, if_neg h1, if_pos h2,
          Option.some.injEq] at h
        subst h
        exact ⟨hle, le_refl _⟩
      · simp only [fclamp, flt, decide_eq_true_eq, if_neg h1, if_neg h2,
          Option.some.injEq] at h
        subst h
        exact ⟨le_of_not_lt h1, le_of_not_lt h2⟩

/-- C4 (counterexample): in the transient-blending scenario the returned and
stored budget of the first tick after the target change is 900, outside the
allocation range `[500, 700]` of the active target state 3 — the blending is
added after the clamp. -/
theorem C4_counterexample :
    tick1C5.2 = some 900 ∧ tick1C5.1.prev_power_budget = some 900 ∧
    exInfoC5.min_alloc_power 3 = some 500 ∧ exInfoC5.max_alloc_power 3 = some 700 ∧
    ¬ ((900 : ℚ) ≤ 700) := by
  with_unfolding_all decide

/-- C4 (amended): on a tick with severity other than NONE, `max_throttling`
off and no transient blending (`tran_cycle` 0 both in the configuration and
in the status), whenever `updatePowerBudget` returns a defined budget it lies
in `[min_alloc_power[s], max_alloc_power[s]]` for the active target state `s`
and is stored as `prev_power_budget`; with blending active the returned value
may leave the range (see the counterexample). -/
theorem C4_amended_budget_range (temp_value : F) (sensor_info : SensorInfo)
    (cooling_device_info_map : List (String × CdevInfo))
    (cdev_all_request_map : List (String × List Int))
    (time_elapsed_ms curr_severity : Nat) (sensor_predictions : List F)
    (st : ThermalThrottlingStatus) (mn mx q : ℚ)
    (hcurr : ¬ curr_severity = 0)
    (htc : st.tran_cycle = 0)
    (hti : sensor_info.throttling_info.tran_cycle = 0)
    (hmn : sensor_info.throttling_info.min_alloc_power
      (getTargetStateOfPID sensor_info curr_severity) = some mn)
    (hmx : sensor_info.throttling_info.max_alloc_power
      (getTargetStateOfPID sensor_info curr_severity) = some mx)
    (hle : mn ≤ mx)
    (hq : (updatePowerBudget temp_value sensor_info cooling_device_info_map
      cdev_all_request_map time_elapsed_ms curr_severity false sensor_predictions st).2
      = some q) :
    mn ≤ q ∧ q ≤ mx ∧
    (updatePowerBudget temp_value sensor_info cooling_device_info_map cdev_all_request_map
      time_elapsed_ms curr_severity false sensor_predictions st).1.prev_power_budget
      = some q := by
  simp only [updatePowerBudget, if_neg hcurr, hti, htc, Nat.lt_irrefl, decide_False,
    Bool.and_false, Bool.false_and, Bool.false_eq_true, if_false, ite_false, ne_eq,
    not_true_eq_false, hmn, hmx] at hq ⊢
  have hb := fclamp_range hq hle
  exact ⟨hb.1, hb.2, hq⟩

/-- Witness for C4: the blending-free scenario returns the clamped budget
600 ∈ [500, 700] and stores it. -/
theorem C4_witness :
    (500 : ℚ) ≤ 600 ∧ (600 : ℚ) ≤ 700 ∧ tickC4.1.prev_power_budget = some 600 :=
  C4_amended_budget_range (some 45) exSiC4 [] [] 100 3 [] exStC5 500 700 600
    (by decide) (by decide) (by decide) (by with_unfolding_all decide)
    (by with_unfolding_all decide) (by norm_num) (by with_unfolding_all decide)

theorem regBindLoop_keeps_sensor (cooling_device_info_map : List (String × CdevInfo))
    (sensor_name : String) :
    ∀ (l : List (String × BindedCdevInfo)) (tt : ThermalThrottling),
      (lookupA tt.thermal_throttling_status_map sensor_name).isSome →
      (lookupA (regBindLoop cooling_device_info_map sensor_name
        l tt).2.thermal_throttling_status_map sensor_name).isSome := by
  intro l
  induction l with
  | nil => intro tt h; exact h
  | cons p rest ih =>
    intro tt h
    obtain ⟨cdev_name, bi⟩ := p
    rw [regBindLoop]
    by_cases hc : (lookupA cooling_device_info_map cdev_name).isNone
    · simpa [hc] using h
    · simp only [hc, if_false, Bool.false_eq_true]
      exact ih _ (by simp [lookupA_setA_self])

theorem regBindLoop_fail (cooling_device_info_map : List (String × CdevInfo))
    (sensor_name : String) :
    ∀ (l : List (String × BindedCdevInfo)) (tt : ThermalThrottling)
      (cdev_name : String) (bi : BindedCdevInfo),
      (cdev_name, bi) ∈ l → lookupA cooling_device_info_map cdev_name = none →
      (regBindLoop cooling_device_info_map sensor_name l tt).1 = false := by
  intro l
  induction l with
  | nil => intro tt c bi h; exact absurd h (List.not_mem_nil _)
  | cons p rest ih =>
    intro tt c bi hmem hnone
    obtain ⟨c0, bi0⟩ := p
    rw [regBindLoop]
    by_cases hc : (lookupA cooling_device_info_map c0).isNone
    · simp [hc]
    · simp only [hc, if_false, Bool.false_eq_true]
      rcases List.mem_cons.mp hmem with heq | hmem2
      · obtain ⟨h1, h2⟩ := Prod.mk.injEq .. ▸ heq
        subst h1
        rw [hnone] at hc
        simp at hc
      · exact ih _ c bi hmem2 hnone

/-- C8 (amended): `registerThermalThrottling` returns false both on a
duplicate registration (leaving the state untouched) and when some bound
CDEV is absent from the cooling device map; in the latter case, however, the
partially initialized entry of the sensor remains in the status map, so
subsequent control ticks are still attempted for it (and can mutate its
state, as the counterexample shows). -/
theorem C8_amended_registration (sensor_name : String) (info : ThrottlingInfo)
    (cooling_device_info_map : List (String × CdevInfo)) (tt : ThermalThrottling) :
    ((lookupA tt.thermal_throttling_status_map sensor_name).isSome →
      ∀ oti, registerThermalThrottling sensor_name oti cooling_device_info_map tt
        = (false, tt))
    ∧ (lookupA tt.thermal_throttling_status_map sensor_name = none →
      ∀ cdev_name bi, (cdev_name, bi) ∈ info.binded_cdev_info_map →
      lookupA cooling_device_info_map cdev_name = none →
      (registerThermalThrottling sensor_name (some info) cooling_device_info_map tt).1
        = false
      ∧ (lookupA (registerThermalThrottling sensor_name (some info) cooling_device_info_map
          tt).2.thermal_throttling_status_map sensor_name).isSome) := by
  constructor
  · intro h oti
    simp [registerThermalThrottling, h]
  · intro h cdev_name bi hmem hnone
    have hns : (lookupA tt.thermal_throttling_status_map sensor_name).isSome = false := by
      simp [h]
    constructor
    · simp only [registerThermalThrottling, hns, Bool.false_eq_true, if_false]
      exact regBindLoop_fail cooling_device_info_map sensor_name _ _ cdev_name bi hmem hnone
    · simp only [registerThermalThrottling, hns, Bool.false_eq_true, if_false]
      exact regBindLoop_keeps_sensor cooling_device_info_map sensor_name _ _
        (by simp [lookupA_setA_self])

/-- Witness for C8: the amended registration theorem applied to the concrete
failed registration with the unknown CDEV `"z"`. -/
theorem C8_witness :
    regC8.1 = false ∧ (lookupA regC8.2.thermal_throttling_status_map "s").isSome :=
  (C8_amended_registration "s" exInfoC8 exCoolC8 ⟨[], []⟩).2 rfl "z" defaultBinded
    (by simp [exInfoC8, exInfoC4, exInfoC5]) rfl

theorem lookupA_updateA_isSome {α : Type} (l : List (String × α)) (k c : String) (v : α) :
    (lookupA (updateA l k v) c).isSome = (lookupA l c).isSome := by
  induction l with
  | nil => simp [updateA]
  | cons p rest ih =>
    obtain ⟨k1, v1⟩ := p
    by_cases h1 : k1 = k
    · subst h1
      by_cases h2 : k1 = c <;> simp [updateA, lookupA, h2]
    · simp only [updateA, if_neg h1]
      by_cases h2 : k1 = c <;> simp [lookupA, h2, ih]

theorem releaseLoop_abort (cooling_device_info_map : List (String × CdevInfo))
    (power_status_map : List (String × F)) (severity : Nat) :
    ∀ (pre : List (String × BindedCdevInfo)) (bname : String) (bbad : BindedCdevInfo)
      (post : List (String × BindedCdevInfo)) (st : ThermalThrottlingStatus),
      ((lookupA st.throttling_release_map bname).isNone ∨
        (lookupA power_status_map bbad.power_rail).isNone) →
      (∀ p ∈ pre, (lookupA st.throttling_release_map p.1).isSome ∧
        (lookupA power_status_map p.2.power_rail).isSome) →
      (releaseLoop cooling_device_info_map power_status_map severity
        (pre ++ (bname, bbad) :: post) st).1 = false ∧
      (∀ n, n ∉ pre.map Prod.fst →
        lookupA (releaseLoop cooling_device_info_map power_status_map severity
          (pre ++ (bname, bbad) :: post) st).2.throttling_release_map n
        = lookupA st.throttling_release_map n) := by
  intro pre
  induction pre with
  | nil =>
    intro bname bbad post st hbad _
    rw [List.nil_append, releaseLoop]
    rcases hbad with hb | hb <;> simp [hb]
  | cons p pre' ih =>
    intro bname bbad post st hbad hpre
    obtain ⟨c0, b0⟩ := p
    have hgood := hpre (c0, b0) (List.mem_cons_self _ _)
    have hg1 : (lookupA st.throttling_release_map c0).isNone = false := by
      rcases Option.isSome_iff_exists.mp hgood.1 with ⟨x, hx⟩
      simp [hx]
    have hg2 : (lookupA power_status_map b0.power_rail).isNone = false := by
      rcases Option.isSome_iff_exists.mp hgood.2 with ⟨x, hx⟩
      simp [hx]
    have hbname : bname ≠ c0 ∨ (lookupA power_status_map bbad.power_rail).isNone := by
      rcases hbad with hb | hb
      · left
        intro heq
        subst heq
        rw [hg1] at hb
        exact Bool.false_ne_true hb
      · right
        exact hb
    rw [List.cons_append, releaseLoop]
    simp only [hg1, hg2, Bool.or_self, Bool.false_eq_true, if_false]
    have step : ∀ (v : Int),
        ((releaseLoop cooling_device_info_map power_status_map severity
          (pre' ++ (bname, bbad) :: post)
          { st with throttling_release_map := updateA st.throttling_release_map c0 v }).1
          = false) ∧
        (∀ n, n ∉ pre'.map Prod.fst → n ≠ c0 →
          lookupA (releaseLoop cooling_device_info_map power_status_map severity
            (pre' ++ (bname, bbad) :: post)
            { st with throttling_release_map :=
                updateA st.throttling_release_map c0 v }).2.throttling_release_map n
          = lookupA st.throttling_release_map n) := by
      intro v
      have hbad' : (lookupA (updateA st.throttling_release_map c0 v) bname).isNone ∨
          (lookupA power_status_map bbad.power_rail).isNone := by
        rcases hbname with hb | hb
        · rcases hbad with hb2 | hb2
          · left
            rw [lookupA_updateA_ne _ _ _ _ (Ne.symm hb)]
            exact hb2
          · right
            exact hb2
        · right
          exact hb
      have hpre' : ∀ p ∈ pre', (lookupA (updateA st.throttling_release_map c0 v)
          p.1).isSome ∧ (lookupA power_status_map p.2.power_rail).isSome := by
        intro p hp
        have h2 := hpre p (List.mem_cons_of_mem _ hp)
        exact ⟨by rw [lookupA_updateA_isSome]; exact h2.1, h2.2⟩
      have hih := ih bname bbad post
        { st with throttling_release_map := updateA st.throttling_release_map c0 v }
        hbad' hpre'
      refine ⟨hih.1, ?_⟩
      intro n hn hnc
      rw [hih.2 n hn]
      exact lookupA_updateA_ne _ _ _ _ (fun heq => hnc heq.symm)
    by_cases havg : ((lookupA power_status_map b0.power_rail).getD none).isNone
        || flt ((lookupA power_status_map b0.power_rail).getD none) (some 0)
    · simp only [havg, if_true]
      refine ⟨(step _).1, ?_⟩
      intro n hn
      have hn1 : n ≠ c0 := by
        intro heq
        exact hn (by simp [heq])
      have hn2 : n ∉ pre'.map Prod.fst := by
        intro hmem
        exact hn (by simp [hmem])
      exact (step _).2 n hn2 hn1
    · simp only [havg, Bool.false_eq_true, if_false]
      refine ⟨(step _).1, ?_⟩
      intro n hn
      have hn1 : n ≠ c0 := by
        intro heq
        exact hn (by simp [heq])
      have hn2 : n ∉ pre'.map Prod.fst := by
        intro hmem
        exact hn (by simp [hmem])
      exact (step _).2 n hn2 hn1

/-- C10 (confirmed): if some bound CDEV has no `throttling_release_map` entry
or its power rail is absent from the power status map, then
`throttlingReleaseUpdate` returns false at the first such CDEV, and the
release step of that CDEV and of every CDEV not yet visited in the call is
left unchanged (the loop does not skip just that CDEV and continue). -/
theorem C10_release_abort (sensor_name : String)
    (cooling_device_info_map : List (String × CdevInfo))
    (power_status_map : List (String × F)) (severity : Nat) (sensor_info : SensorInfo)
    (tt : ThermalThrottling) (st : ThermalThrottlingStatus)
    (pre : List (String × BindedCdevInfo)) (bname : String) (bbad : BindedCdevInfo)
    (post : List (String × BindedCdevInfo))
    (hst : lookupA tt.thermal_throttling_status_map sensor_name = some st)
    (hsplit : sensor_info.throttling_info.binded_cdev_info_map
      = pre ++ (bname, bbad) :: post)
    (hbad : (lookupA st.throttling_release_map bname).isNone ∨
      (lookupA power_status_map bbad.power_rail).isNone)
    (hpre : ∀ p ∈ pre, (lookupA st.throttling_release_map p.1).isSome ∧
      (lookupA power_status_map p.2.power_rail).isSome) :
    (throttlingReleaseUpdate sensor_name cooling_device_info_map power_status_map severity
      sensor_info tt).1 = false ∧
    ∀ n, n ∉ pre.map Prod.fst →
      lookupA (atD (throttlingReleaseUpdate sensor_name cooling_device_info_map
        power_status_map severity sensor_info tt).2.thermal_throttling_status_map
        sensor_name initStatus).throttling_release_map n
      = lookupA st.throttling_release_map n := by
  have habort := releaseLoop_abort cooling_device_info_map power_status_map severity
    pre bname bbad post st hbad hpre
  rw [throttlingReleaseUpdate, hst, hsplit]
  simp only [atD, lookupA_setA_self, Option.getD_some]
  exact habort

/-- Witness for C10: the release-abort theorem applied to the concrete
scenario where `"b"` has a rail absent from the power status map. -/
theorem C10_witness :
    (throttlingReleaseUpdate "s" [] [("ra", some 10)] 1 exSiC10 exTTC10).1 = false :=
  (C10_release_abort "s" [] [("ra", some 10)] 1 exSiC10 exTTC10 exStC10
    [("a", exBiC10a)] "b" exBiC10b [("d", exBiC10d)] rfl rfl
    (Or.inr (by with_unfolding_all decide))
    (by
      intro p hp
      rw [List.mem_singleton] at hp
      subst hp
      exact ⟨by with_unfolding_all decide, by with_unfolding_all decide⟩)).1

theorem regStepStatus_cdev_self (cdev_name : String) (bi : BindedCdevInfo)
    (st : ThermalThrottlingStatus) :
    lookupA (regStepStatus cdev_name bi st).cdev_status_map cdev_name =
      if pidRegistered bi || hardRegistered bi then some 0
      else lookupA st.cdev_status_map cdev_name := by
  by_cases hp : pidRegistered bi = true <;> by_cases hh : hardRegistered bi = true <;>
    by_cases hr : releaseRegistered bi = true <;>
    simp [regStepStatus, hp, hh, hr, lookupA_setA_self]

theorem regStepStatus_cdev_ne (cdev_name : String) (bi : BindedCdevInfo)
    (st : ThermalThrottlingStatus) (c : String) (h : c ≠ cdev_name) :
    lookupA (regStepStatus cdev_name bi st).cdev_status_map c =
      lookupA st.cdev_status_map c := by
  have hne : cdev_name ≠ c := Ne.symm h
  by_cases hp : pidRegistered bi = true <;> by_cases hh : hardRegistered bi = true <;>
    by_cases hr : releaseRegistered bi = true <;>
    simp [regStepStatus, hp, hh, hr, lookupA_setA_ne _ _ _ _ hne]

theorem regBindLoop_cdev_status (cooling_device_info_map : List (String × CdevInfo))
    (sensor_name : String) :
    ∀ (l : List (String × BindedCdevInfo)) (tt : ThermalThrottling)
      (st_acc : ThermalThrottlingStatus),
      (l.map Prod.fst).Nodup →
      lookupA tt.thermal_throttling_status_map sensor_name = some st_acc →
      (regBindLoop cooling_device_info_map sensor_name l tt).1 = true →
      (∀ c, c ∉ l.map Prod.fst →
        lookupA (atD (regBindLoop cooling_device_info_map sensor_name
          l tt).2.thermal_throttling_status_map sensor_name initStatus).cdev_status_map c
        = lookupA st_acc.cdev_status_map c)
      ∧ (∀ c bi, (c, bi) ∈ l →
        lookupA (atD (regBindLoop cooling_device_info_map sensor_name
          l tt).2.thermal_throttling_status_map sensor_name initStatus).cdev_status_map c
        = if pidRegistered bi || hardRegistered bi then some 0
          else lookupA st_acc.cdev_status_map c) := by
  intro l
  induction l with
  | nil =>
    intro tt st_acc _ hst _
    refine ⟨fun c _ => ?_, fun c bi h => absurd h (List.not_mem_nil _)⟩
    simp [regBindLoop, atD, hst]
  | cons p rest ih =>
    intro tt st_acc hnd hst hsucc
    obtain ⟨c0, bi0⟩ := p
    have hnd0 : c0 ∉ rest.map Prod.fst := (List.nodup_cons.mp (by simpa using hnd)).1
    have hndr : (rest.map Prod.fst).Nodup := (List.nodup_cons.mp (by simpa using hnd)).2
    rw [regBindLoop] at hsucc ⊢
    by_cases hc : (lookupA cooling_device_info_map c0).isNone = true
    · rw [if_pos hc] at hsucc
      exact absurd hsucc (by simp)
    · rw [if_neg hc] at hsucc ⊢
      have hst' : atD tt.thermal_throttling_status_map sensor_name initStatus = st_acc := by
        simp [atD, hst]
      simp only [hst'] at hsucc ⊢
      have hih := ih _ (regStepStatus c0 bi0 st_acc) hndr (lookupA_setA_self _ _ _) hsucc
      constructor
      · intro c hcm
        have hc1 : c ≠ c0 := fun heq => hcm (by simp [heq])
        have hc2 : c ∉ rest.map Prod.fst := fun hmem => hcm (by simp [hmem])
        rw [hih.1 c hc2, regStepStatus_cdev_ne _ _ _ _ hc1]
      · intro c bi hmem
        rcases List.mem_cons.mp hmem with heq | hmem2
        · have h1 : c = c0 := congrArg Prod.fst heq
          have h2 : bi = bi0 := congrArg Prod.snd heq
          subst h1
          subst h2
          rw [hih.1 c hnd0, regStepStatus_cdev_self]
        · have hc1 : c ≠ c0 := by
            intro heq
            subst heq
            exact hnd0 (List.mem_map.mpr ⟨(c, bi), hmem2, rfl⟩)
          rw [hih.2 c bi hmem2, regStepStatus_cdev_ne _ _ _ _ hc1]

/-- C9 (counterexample): a CDEV whose binding has all PID weights NaN, all
hard limits 0, but a power rail with a defined power threshold registers
successfully, gets a `throttling_release_map` entry, yet does NOT appear in
`cdev_status_map` — the claim says a defined power threshold suffices. -/
theorem C9_counterexample :
    regC9.1 = true ∧
    lookupA (atD regC9.2.thermal_throttling_status_map "s"
      initStatus).cdev_status_map "c" = none ∧
    lookupA (atD regC9.2.thermal_throttling_status_map "s"
      initStatus).throttling_release_map "c" = some 0 ∧
    specCdevStatusPresent exBiC9 := by
  refine ⟨by decide, by decide, by decide, Or.inr (Or.inr ⟨0, by norm_num, by decide⟩)⟩

/-- C9 (amended): after a successful registration of a fresh sensor, a bound
CDEV appears in its `cdev_status_map` iff its binding has a non-NaN PID
weight at some severity (a zero weight counts) or a positive hard limit at
some severity; a power threshold alone populates only the release map. -/
theorem C9_amended_cdev_status (sensor_name : String) (info : ThrottlingInfo)
    (cooling_device_info_map : List (String × CdevInfo)) (tt : ThermalThrottling)
    (cdev_name : String) (bi : BindedCdevInfo)
    (h0 : lookupA tt.thermal_throttling_status_map sensor_name = none)
    (hnd : (info.binded_cdev_info_map.map Prod.fst).Nodup)
    (hmem : (cdev_name, bi) ∈ info.binded_cdev_info_map)
    (hsucc : (registerThermalThrottling sensor_name (some info) cooling_device_info_map
      tt).1 = true) :
    (lookupA (atD (registerThermalThrottling sensor_name (some info)
      cooling_device_info_map tt).2.thermal_throttling_status_map sensor_name
      initStatus).cdev_status_map cdev_name).isSome
    = (pidRegistered bi || hardRegistered bi) := by
  have hns : (lookupA tt.thermal_throttling_status_map sensor_name).isSome = false := by
    simp [h0]
  rw [registerThermalThrottling] at hsucc ⊢
  rw [if_neg (by simp [hns])] at hsucc ⊢
  have hkey := (regBindLoop_cdev_status cooling_device_info_map sensor_name
    info.binded_cdev_info_map _ initStatus hnd (lookupA_setA_self _ _ _) hsucc).2
    cdev_name bi hmem
  rw [hkey]
  by_cases hreg : (pidRegistered bi || hardRegistered bi) = true <;>
    simp [hreg, initStatus, lookupA]

/-- Witness for C9: the amended theorem applied to the threshold-only
binding, whose CDEV is indeed absent from `cdev_status_map`. -/
theorem C9_witness :
    (lookupA (atD regC9.2.thermal_throttling_status_map "s"
      initStatus).cdev_status_map "c").isSome
    = (pidRegistered exBiC9 || hardRegistered exBiC9) :=
  C9_amended_cdev_status "s" exInfoC9 [("c", exCdevC7)] ⟨[], []⟩ "c" exBiC9 rfl
    (by simp [exInfoC9, exInfoC5]) (by simp [exInfoC9, exInfoC5]) (by decide)

theorem ccdrLoop_out_subset (st : ThermalThrottlingStatus)
    (bindings : List (String × BindedCdevInfo)) (curr_severity : Nat) :
    ∀ (l : List (String × Int)) (reg : List (String × List Int)) (c : String),
      c ∈ (ccdrLoop st bindings curr_severity l reg).2.2 → c ∈ l.map Prod.fst := by
  intro l
  induction l with
  | nil => intro reg c h; simp [ccdrLoop] at h
  | cons p rest ih =>
    intro reg c h
    obtain ⟨c0, cur⟩ := p
    simp only [ccdrLoop] at h
    split at h
    · split at h
      · rcases List.mem_cons.mp h with heq | h2
        · simp [heq]
        · exact List.mem_cons_of_mem _ (ih _ _ h2)
      · exact List.mem_cons_of_mem _ (ih _ _ h)
    · exact List.mem_cons_of_mem _ (ih _ _ h)

theorem ccdrLoop_notify (st : ThermalThrottlingStatus)
    (bindings : List (String × BindedCdevInfo)) (curr_severity : Nat) :
    ∀ (l : List (String × Int)) (reg : List (String × List Int)) (c : String)
      (cur : Int) (r : List Int),
      (l.map Prod.fst).Nodup → (c, cur) ∈ l → lookupA reg c = some r → cur ∈ r →
      (c ∈ (ccdrLoop st bindings curr_severity l reg).2.2 ↔
        regMax (ccdrReq st bindings curr_severity c :: r.erase cur) ≠ regMax r) := by
  intro l
  induction l with
  | nil => intro reg c cur r _ hmem; exact absurd hmem (List.not_mem_nil _)
  | cons p rest ih =>
    intro reg c cur r hnd hmem hreg hcur
    obtain ⟨c0, v0⟩ := p
    have hnd0 : c0 ∉ rest.map Prod.fst := (List.nodup_cons.mp (by simpa using hnd)).1
    have hndr : (rest.map Prod.fst).Nodup := (List.nodup_cons.mp (by simpa using hnd)).2
    by_cases hcc : c = c0
    · subst hcc
      have hv0 : v0 = cur := by
        rcases List.mem_cons.mp hmem with heq | hmem2
        · exact (congrArg Prod.snd heq).symm
        · exact absurd (List.mem_map.mpr ⟨(c, cur), hmem2, rfl⟩) hnd0
      subst hv0
      have hat : atD reg c [] = r := by simp [atD, hreg]
      rw [ccdrLoop]
      by_cases hne : v0 ≠ ccdrReq st bindings curr_severity c
      · rw [if_pos hne]
        simp only [updateCdevMaxRequestAndNotifyIfChange, hat, decide_eq_true_eq]
        have hsub := ccdrLoop_out_subset st bindings curr_severity rest
          (setA reg c (ccdrReq st bindings curr_severity c :: r.erase v0))
        by_cases hch : regMax (ccdrReq st bindings curr_severity c :: r.erase v0) ≠ regMax r
        · rw [if_pos hch]
          simp [hch]
        · rw [if_neg hch]
          constructor
          · intro hmem3
            exact absurd (hsub _ hmem3) hnd0
          · intro hrhs
            exact absurd hrhs hch
      · rw [if_neg hne]
        push_neg at hne
        constructor
        · intro hmem3
          exact absurd (ccdrLoop_out_subset st bindings curr_severity rest reg _ hmem3) hnd0
        · intro hrhs
          exfalso
          apply hrhs
          rw [← hne]
          exact (regMax_perm (List.perm_cons_erase hcur)).symm
    · have hmem2 : (c, cur) ∈ rest := by
        rcases List.mem_cons.mp hmem with heq | hmem2
        · exact absurd (congrArg Prod.fst heq) hcc
        · exact hmem2
      rw [ccdrLoop]
      by_cases hne : v0 ≠ ccdrReq st bindings curr_severity c0
      · rw [if_pos hne]
        have hreg2 : lookupA (updateCdevMaxRequestAndNotifyIfChange reg c0 v0
            (ccdrReq st bindings curr_severity c0)).1 c = some r := by
          simp only [updateCdevMaxRequestAndNotifyIfChange]
          rw [lookupA_setA_ne _ _ _ _ (Ne.symm hcc)]
          exact hreg
        have hih := ih _ c cur r hndr hmem2 hreg2 hcur
        by_cases hch : (updateCdevMaxRequestAndNotifyIfChange reg c0 v0
            (ccdrReq st bindings curr_severity c0)).2 = true
        · simp only [hch, if_true]
          rw [← hih]
          simp [hcc]
        · simp only [hch, Bool.false_eq_true, if_false]
          exact hih
      · rw [if_neg hne]
        exact ih _ c cur r hndr hmem2 hreg hcur

/-- C2 (confirmed): with the vote registry entry of a CDEV holding exactly
the requests currently recorded by the sensors (as a multiset), the
queryable maximum `getCdevMaxRequest` equals the maximum recorded request,
and `computeCoolingDevicesRequest` appends the CDEV to
`cooling_devices_to_update` iff replacing the previous vote of this sensor by its
new final request changes that maximum. -/
theorem C2_registry_max_and_notify (sensor_name : String) (sensor_info : SensorInfo)
    (curr_severity : Nat) (tt : ThermalThrottling) (st : ThermalThrottlingStatus)
    (cdev_name : String) (cur : Int) (r : List Int)
    (hst : lookupA tt.thermal_throttling_status_map sensor_name = some st)
    (hnd : (st.cdev_status_map.map Prod.fst).Nodup)
    (hmem : (cdev_name, cur) ∈ st.cdev_status_map)
    (hreg : lookupA tt.cdev_all_request_map cdev_name = some r)
    (hcur : cur ∈ r)
    (hperm : r.Perm (sensorVotes tt.thermal_throttling_status_map cdev_name)) :
    getCdevMaxRequest tt.cdev_all_request_map cdev_name
      = some (regMax (sensorVotes tt.thermal_throttling_status_map cdev_name)) ∧
    (cdev_name ∈ (computeCoolingDevicesRequest sensor_name sensor_info curr_severity tt).2 ↔
      regMax (ccdrReq st (ccdrBindings sensor_info st) curr_severity cdev_name
        :: r.erase cur) ≠ regMax r) := by
  constructor
  · rw [getCdevMaxRequest, hreg, Option.map_some', regMax_perm hperm]
  · simp only [computeCoolingDevicesRequest, hst]
    exact ccdrLoop_notify st (ccdrBindings sensor_info st) curr_severity
      st.cdev_status_map tt.cdev_all_request_map cdev_name cur r hnd hmem hreg hcur

/-- Witness for C2: one sensor with recorded vote 0 and a new PID request 2
for CDEV `"c"`; the registry maximum is 0 and the CDEV is notified because
replacing 0 by 2 changes the maximum. -/
theorem C2_witness :
    getCdevMaxRequest exTTC2.cdev_all_request_map "c"
      = some (regMax (sensorVotes exTTC2.thermal_throttling_status_map "c")) ∧
    ("c" ∈ (computeCoolingDevicesRequest "s" exSiC1 2 exTTC2).2 ↔
      regMax (ccdrReq exStC2 (ccdrBindings exSiC1 exStC2) 2 "c"
        :: List.erase [0] 0) ≠ regMax [0]) :=
  C2_registry_max_and_notify "s" exSiC1 2 exTTC2 exStC2 "c" 0 [0] rfl
    (by decide) (by decide) rfl (by decide) (by decide)

end Thermal
